import Mathlib

/-!
Shallow embedding of the water-quality analytics core of the `agua-aguaflow`
repository, together with proofs checking the natural-language specification
against it.  Numbers are modelled as rationals (`ℚ`), JavaScript `null` for a
numeric field as `Option ℚ`, timestamps as epoch milliseconds (`ℤ`, with local
time identified with UTC), and the two transcendental library routines the code
calls (`Math.sqrt`, `Math.exp`) as an explicit parameter `RealOps`, so that
every definition stays computable.  The per-day random perturbation
(`Math.random() - 0.5) * 2` in the forecasting engine is likewise passed in as
an explicit `noise` function.
-/

/-- Milliseconds per hour, as used throughout the JS code (`1000 * 60 * 60`). -/
def msPerHour : ℤ := 1000 * 60 * 60

/-- Milliseconds per day (`24 * 60 * 60 * 1000`). -/
def msPerDay : ℤ := 24 * msPerHour

/-- Day of week of an epoch-day count, following JavaScript `Date.getDay`:
`0` = Sunday … `6` = Saturday.  Epoch day `0` (1970-01-01) was a Thursday,
hence the offset `4`. -/
def dayOfWeekOfDay (d : ℤ) : ℤ := Int.fmod (d + 4) 7

/-- Day of week of an epoch-millisecond timestamp (JS `new Date(t).getDay()`,
with local time identified with UTC). -/
def weekdayOfMs (t : ℤ) : ℤ := dayOfWeekOfDay (Int.fdiv t msPerDay)

/-- JavaScript `Math.round(x * 10) / 10` / `parseFloat(x.toFixed(1))`:
rounding to one decimal place.  (`Math.round` rounds halves up, matching
Mathlib's `round`; the nonnegative values this is applied to make the
half-tie convention of `toFixed` agree as well.) -/
def round10 (q : ℚ) : ℚ := ((round (q * 10) : ℤ) : ℚ) / 10

/-- Rounding to `d` decimal places, modelling `parseFloat(x.toFixed(d))`. -/
def roundTo (d : ℕ) (q : ℚ) : ℚ :=
  ((round (q * (10 : ℚ) ^ d) : ℤ) : ℚ) / (10 : ℚ) ^ d

/-- JavaScript `x || y` for a numeric `x`: `y` when `x` is falsy (`0`), else `x`. -/
def jsOr (x y : ℚ) : ℚ := if x = 0 then y else x

/-- The two `Math` library routines used by the engine.  They are kept
abstract (any function `ℚ → ℚ`) so the embedding stays computable; theorems
assume only the properties actually needed (nonnegativity of `sqrt` on
nonnegative arguments, nonnegativity of `exp`). -/
structure RealOps where
  sqrt : ℚ → ℚ
  exp : ℚ → ℚ

/-- A water-quality reading.  `timestamp` is the parsed reading time in epoch
milliseconds; the four metric fields are `number | null` in the source and are
modelled as `Option ℚ`. -/
structure Reading where
  timestamp : ℤ
  region : String
  sensor_id : String
  temperature : Option ℚ
  pH : Option ℚ
  turbidity : Option ℚ
  region_avg_quality_index : Option ℚ
  deriving DecidableEq

instance : Inhabited Reading :=
  ⟨⟨0, "", "", none, none, none, none⟩⟩

/-- The quality index of a reading as used in JS arithmetic contexts
(`+`, `-`, `*`), where `null` coerces to `0`. -/
def qnum (r : Reading) : ℚ := r.region_avg_quality_index.getD 0

/-- Dynamic field access `reading[parameter]` for the four metric fields;
any other parameter name reads as `undefined`/missing (`none`). -/
def paramOf (r : Reading) (parameter : String) : Option ℚ :=
  if parameter = "temperature" then r.temperature
  else if parameter = "pH" then r.pH
  else if parameter = "turbidity" then r.turbidity
  else if parameter = "region_avg_quality_index" then r.region_avg_quality_index
  else none

/-! ## Statistics Core (`calculateStatistics`, src/unnamed/part_004) -/

/-- The `StatSummary` record returned by `calculateStatistics`. -/
structure StatSummary where
  min : ℚ
  max : ℚ
  average : ℚ
  median : ℚ
  stdDev : ℚ
  count : ℕ
  deriving DecidableEq

/-- `calculateStatistics(values)`: empty input yields the all-zero summary;
otherwise min/max/median are read off a sorted copy of the input
(`[...values].sort((a, b) => a - b)`), the average is `sum / count`, and the
standard deviation is the population standard deviation
(`sqrt(Σ (v - avg)² / count)`). -/
def calculateStatistics (ops : RealOps) (values : List ℚ) : StatSummary :=
  if values.length = 0 then ⟨0, 0, 0, 0, 0, 0⟩
  else
    let sortedValues := values.insertionSort (· ≤ ·)
    let count := values.length
    let sum := values.sum
    let average := sum / (count : ℚ)
    let median :=
      if count % 2 = 0 then
        (sortedValues.getD (count / 2 - 1) 0 + sortedValues.getD (count / 2) 0) / 2
      else sortedValues.getD (count / 2) 0
    let variance := (values.map (fun v => (v - average) ^ 2)).sum / (count : ℚ)
    ⟨sortedValues.getD 0 0, sortedValues.getD (count - 1) 0, average, median,
      ops.sqrt variance, count⟩

/-- State of the caller's `values` array after `calculateStatistics` returns:
the code sorts a spread copy (`[...values].sort`), so the argument is
untouched. -/
def calculateStatisticsArrayAfter (values : List ℚ) : List ℚ := values

/-! ## Aggregator (`detectAnomalies`, `calculateTrend`, src/unnamed/part_004) -/

/-- A `{min, max}` threshold pair. -/
structure MinMaxThreshold where
  min : ℚ
  max : ℚ
  deriving DecidableEq

/-- A `{max}`-only threshold. -/
structure MaxThreshold where
  max : ℚ
  deriving DecidableEq

/-- A `{min}`-only threshold. -/
structure MinThreshold where
  min : ℚ
  deriving DecidableEq

/-- Caller-supplied threshold overrides for `detectAnomalies`.  The JS merge
`{...defaultThresholds, ...thresholds}` replaces each top-level sub-object
wholesale, which is modelled by one `Option` per parameter. -/
structure ThresholdOverrides where
  temperature : Option MinMaxThreshold
  pH : Option MinMaxThreshold
  turbidity : Option MaxThreshold
  quality_index : Option MinThreshold

/-- Calling `detectAnomalies` with no second argument (`thresholds = {}`). -/
def noOverrides : ThresholdOverrides := ⟨none, none, none, none⟩

/-- The merged thresholds actually used by `detectAnomalies`. -/
structure Thresholds where
  temperature : MinMaxThreshold
  pH : MinMaxThreshold
  turbidity : MaxThreshold
  quality_index : MinThreshold

/-- The `defaultThresholds` of `detectAnomalies`. -/
def defaultThresholds : Thresholds :=
  ⟨⟨10, 35⟩, ⟨6, 9⟩, ⟨10⟩, ⟨20⟩⟩

/-- The merge `{...defaultThresholds, ...thresholds}`. -/
def mergeThresholds (overrides : ThresholdOverrides) : Thresholds :=
  ⟨overrides.temperature.getD defaultThresholds.temperature,
    overrides.pH.getD defaultThresholds.pH,
    overrides.turbidity.getD defaultThresholds.turbidity,
    overrides.quality_index.getD defaultThresholds.quality_index⟩

/-- JS `a < b` where `a : number | null`: the relational operators coerce
`null` to `0`. -/
def jsNullLt (a : Option ℚ) (b : ℚ) : Bool := a.getD 0 < b

/-- JS `a > b` where `a : number | null` (again `null` coerces to `0`). -/
def jsNullGt (a : Option ℚ) (b : ℚ) : Bool := b < a.getD 0

/-- The `anomalies` list pushed for one reading inside `detectAnomalies`, in
the order the code performs its checks. -/
def anomaliesOf (t : Thresholds) (r : Reading) : List String :=
  (if jsNullLt r.temperature t.temperature.min ∨ jsNullGt r.temperature t.temperature.max
    then ["temperature"] else []) ++
  (if jsNullLt r.pH t.pH.min ∨ jsNullGt r.pH t.pH.max then ["pH"] else []) ++
  (if jsNullGt r.turbidity t.turbidity.max then ["turbidity"] else []) ++
  (if jsNullLt r.region_avg_quality_index t.quality_index.min
    then ["quality_index"] else [])

/-- `detectAnomalies(data, thresholds)`: keeps exactly the readings violating
at least one threshold.  The JS code annotates the kept reading objects in
place with an `anomalies` field; the annotated reading is modelled as the pair
`(reading, anomalies)`. -/
def detectAnomalies (data : List Reading) (overrides : ThresholdOverrides) :
    List (Reading × List String) :=
  let t := mergeThresholds overrides
  data.filterMap fun r =>
    let a := anomaliesOf t r
    if a.isEmpty then none else some (r, a)

/-- The result record of `calculateTrend`.  (The `first_value`, `last_value`
and `data_points` fields of the success shape are not modelled; no claim
mentions them.) -/
structure TrendResult where
  trend : String
  slope : ℚ
  correlation : ℚ
  change_percentage : ℚ
  deriving DecidableEq

/-- The `insufficient_data` result of `calculateTrend`. -/
def insufficientTrend : TrendResult := ⟨"insufficient_data", 0, 0, 0⟩

/-- `calculateTrend(data, parameter)`: ordinary least-squares slope and
Pearson correlation of the parameter's non-null values against all of the
readings' epoch-millisecond timestamps, plus a percentage-change
classification.  The guard compares the count of non-null values against the
count of all timestamps, so any `null` value forces `insufficient_data`.
Division by zero (a zero variance denominator, or `first value = 0` in the
percentage change) yields `0` in this rational model where JS produces
`NaN`/`Infinity`; no claim depends on those inputs. -/
def calculateTrend (ops : RealOps) (data : List Reading) (parameter : String) :
    TrendResult :=
  if data.length < 2 then insufficientTrend
  else
    let values := data.filterMap fun r => paramOf r parameter
    let timestamps := data.map fun r => (r.timestamp : ℚ)
    if values.length ≠ timestamps.length ∨ values.length < 2 then insufficientTrend
    else
      let n : ℚ := values.length
      let sumX := timestamps.sum
      let sumY := values.sum
      let sumXY := ((timestamps.zip values).map fun p => p.1 * p.2).sum
      let sumXX := (timestamps.map fun x => x * x).sum
      let sumYY := (values.map fun y => y * y).sum
      let slope := (n * sumXY - sumX * sumY) / (n * sumXX - sumX * sumX)
      let correlation := (n * sumXY - sumX * sumY) /
        ops.sqrt ((n * sumXX - sumX * sumX) * (n * sumYY - sumY * sumY))
      let firstValue := values.getD 0 0
      let lastValue := values.getD (values.length - 1) 0
      let changePercentage := (lastValue - firstValue) / firstValue * 100
      let trend :=
        if 5 < |changePercentage| then
          if 0 < changePercentage then "increasing" else "decreasing"
        else "stable"
      ⟨trend, roundTo 6 slope, roundTo 3 correlation, roundTo 2 changePercentage⟩

/-! ## Batch Summary Generator (src/unnamed/part_003) -/

/-- Civil date `(year, month 1–12, day 1–31)` of an epoch-day count
(proleptic Gregorian calendar, as JS `Date` uses).  Standard
era/day-of-era decomposition. -/
def civilFromDays (z : ℤ) : ℤ × ℤ × ℤ :=
  let z' := z + 719468
  let era := Int.fdiv z' 146097
  let doe := z' - era * 146097
  let yoe := Int.fdiv (doe - Int.fdiv doe 1460 + Int.fdiv doe 36524 - Int.fdiv doe 146096) 365
  let y := yoe + era * 400
  let doy := doe - (365 * yoe + Int.fdiv yoe 4 - Int.fdiv yoe 100)
  let mp := Int.fdiv (5 * doy + 2) 153
  let d := doy - Int.fdiv (153 * mp + 2) 5 + 1
  let m := mp + (if mp < 10 then 3 else -9)
  (y + (if m ≤ 2 then 1 else 0), m, d)

/-- Epoch-day count of a civil date (inverse of `civilFromDays`; `d` may lie
outside 1–31, matching the rollover behaviour of the JS `Date` constructor). -/
def daysFromCivil (y m d : ℤ) : ℤ :=
  let y' := if m ≤ 2 then y - 1 else y
  let era := Int.fdiv y' 400
  let yoe := y' - era * 400
  let mp := Int.fmod (m + 9) 12
  let doy := Int.fdiv (153 * mp + 2) 5 + d - 1
  let doe := yoe * 365 + Int.fdiv yoe 4 - Int.fdiv yoe 100 + doy
  era * 146097 + doe - 719468

/-- `getIntervalKey(timestamp, interval)`.  The JS code builds a floored local
`Date` and keys the group by its ISO string; since the ISO string and the
underlying epoch milliseconds determine each other, the key is modelled
directly as the floored epoch-millisecond value.  `hourly` floors to the hour,
`daily` (and any unknown interval) to midnight, `weekly` to the most recent
Sunday, `monthly` to day 1 of the month. -/
def getIntervalKey (t : ℤ) (interval : String) : ℤ :=
  let day := Int.fdiv t msPerDay
  let hour := Int.fdiv (Int.fmod t msPerDay) msPerHour
  if interval = "hourly" then day * msPerDay + hour * msPerHour
  else if interval = "daily" then day * msPerDay
  else if interval = "weekly" then (day - dayOfWeekOfDay day) * msPerDay
  else if interval = "monthly" then
    let c := civilFromDays day
    daysFromCivil c.1 c.2.1 1 * msPerDay
  else day * msPerDay

/-- One step of `groupDataByInterval`'s accumulation: push `r` onto the group
keyed `k`, creating the group at the end when the key is new (JS object keys
keep insertion order). -/
def insertGroup (groups : List (ℤ × List Reading)) (k : ℤ) (r : Reading) :
    List (ℤ × List Reading) :=
  match groups with
  | [] => [(k, [r])]
  | (k', rs) :: rest =>
    if k' = k then (k', rs ++ [r]) :: rest else (k', rs) :: insertGroup rest k r

/-- `groupDataByInterval(data, interval)`: the association list of groups in
key-insertion order, each group holding its readings in input order. -/
def groupDataByInterval (data : List Reading) (interval : String) :
    List (ℤ × List Reading) :=
  data.foldl (fun gs r => insertGroup gs (getIntervalKey r.timestamp interval) r) []

/-- Lookup of `groupedData[timestamp]` by key. -/
def lookupGroup (groups : List (ℤ × List Reading)) (k : ℤ) : List Reading :=
  match groups with
  | [] => []
  | (k', rs) :: rest => if k' = k then rs else lookupGroup rest k

/-- First-occurrence deduplication, modelling `[...new Set(xs)]`. -/
def jsSetUniq (seen : List String) : List String → List String
  | [] => []
  | a :: l => if a ∈ seen then jsSetUniq seen l else a :: jsSetUniq (seen ++ [a]) l

/-- `calculateExpectedReadings(sensorCount, interval)`:
`ceil(sensorCount × 0.25 readings/hour × hoursInInterval)`. -/
def calculateExpectedReadings (sensorCount : ℕ) (interval : String) : ℤ :=
  let hoursInInterval : ℚ :=
    if interval = "hourly" then 1
    else if interval = "daily" then 24
    else if interval = "weekly" then 24 * 7
    else if interval = "monthly" then 24 * 30
    else 24
  ⌈(sensorCount : ℚ) * (1 / 4) * hoursInInterval⌉

/-- The fields of a `BatchSummary` the claims are about.  (The per-parameter
statistics blocks, `period_end`, `overall_quality_rating`, the metadata lists
and the optional breakdown fields are not modelled; no claim mentions them.) -/
structure BatchSummary where
  timestamp : ℤ
  interval : String
  total_readings : ℕ
  regions_count : ℕ
  sensors_count : ℕ
  data_completeness_percentage : ℚ
  deriving DecidableEq

instance : Inhabited BatchSummary := ⟨⟨0, "", 0, 0, 0, 0⟩⟩

/-- `generateSingleBatchSummary(batchData, timestamp, interval)`, restricted
to the modelled fields.  `data_completeness_percentage` is
`actual / expected × 100` (or `100` when `expected = 0`), rounded to one
decimal by `parseFloat(completeness.toFixed(1))` — the code applies no
`min(100, ·)` cap. -/
def generateSingleBatchSummary (batchData : List Reading) (timestamp : ℤ)
    (interval : String) : BatchSummary :=
  let uniqueRegions := jsSetUniq [] (batchData.map fun r => r.region)
  let uniqueSensors := jsSetUniq [] (batchData.map fun r => r.sensor_id)
  let expectedReadings := calculateExpectedReadings uniqueSensors.length interval
  let actualReadings := batchData.length
  let completeness : ℚ :=
    if 0 < expectedReadings then (actualReadings : ℚ) / (expectedReadings : ℚ) * 100
    else 100
  ⟨timestamp, interval, batchData.length, uniqueRegions.length,
    uniqueSensors.length, round10 completeness⟩

/-- `generateBatchSummaries(data, interval)`: group by interval key, sort the
keys descending (`new Date(b) - new Date(a)`), and emit one summary per
bucket.  (The four `include*` options only attach extra fields outside the
modelled ones and are omitted.) -/
def generateBatchSummaries (data : List Reading) (interval : String) :
    List BatchSummary :=
  if data.length = 0 then []
  else
    let groupedData := groupDataByInterval data interval
    let sortedKeys := (groupedData.map Prod.fst).insertionSort (· ≥ ·)
    sortedKeys.map fun k =>
      generateSingleBatchSummary (lookupGroup groupedData k) k interval

/-! ## Forecasting Engine (src/src/components/WaterQualityAPI/utils/forecastingEngine.js) -/

/-- Result of `calculateLinearRegression`. -/
structure Regression where
  slope : ℚ
  intercept : ℚ
  r2 : ℚ
  deriving DecidableEq

/-- `calculateLinearRegression(data)` over `{x, y}` points.  (The code also
computes a `sumYY` it never uses; it is omitted.) -/
def calculateLinearRegression (data : List (ℚ × ℚ)) : Regression :=
  if data.length < 2 then ⟨0, 0, 0⟩
  else
    let n : ℚ := data.length
    let sumX := (data.map Prod.fst).sum
    let sumY := (data.map Prod.snd).sum
    let sumXY := (data.map fun p => p.1 * p.2).sum
    let sumXX := (data.map fun p => p.1 * p.1).sum
    let slope := (n * sumXY - sumX * sumY) / (n * sumXX - sumX * sumX)
    let intercept := (sumY - slope * sumX) / n
    let yMean := sumY / n
    let ssRes := (data.map fun p => (p.2 - (slope * p.1 + intercept)) ^ 2).sum
    let ssTot := (data.map fun p => (p.2 - yMean) ^ 2).sum
    ⟨slope, intercept, if ssTot = 0 then 1 else 1 - ssRes / ssTot⟩

/-- `calculateMovingAverage(values, window)`: centered moving average; inputs
shorter than the window are returned unchanged.  `Math.max(0, i - floor(w/2))`
is truncated subtraction on `ℕ`. -/
def calculateMovingAverage (values : List ℚ) (window : ℕ) : List ℚ :=
  if values.length < window then values
  else
    (List.range values.length).map fun i =>
      let start := i - window / 2
      let stop := min values.length (start + window)
      let slice := (values.drop start).take (stop - start)
      slice.sum / (slice.length : ℚ)

/-- The readings of `historicalData` falling on weekday `d` (the per-weekday
accumulation loop of `detectSeasonalPatterns`, expressed as a filter). -/
def weekdayReadings (historicalData : List Reading) (d : ℤ) : List Reading :=
  historicalData.filter fun r => weekdayOfMs r.timestamp = d

/-- Result of `detectSeasonalPatterns`; the length-7 arrays are modelled as
functions of the weekday. -/
structure SeasonalAnalysis where
  weeklyPattern : ℤ → ℚ
  seasonalFactors : ℤ → ℚ
  overallAverage : ℚ

/-- `detectSeasonalPatterns(historicalData)`: per-weekday average quality
index (`0` for a weekday with no readings, with `null` indices coerced to `0`
by the `+=`), an `overallAverage` that is the mean of those seven per-weekday
averages, and factors `weekday-average / overallAverage` (all `1` when
`overallAverage ≤ 0`). -/
def detectSeasonalPatterns (historicalData : List Reading) : SeasonalAnalysis :=
  let weeklyPattern : ℤ → ℚ := fun d =>
    let onDay := weekdayReadings historicalData d
    if 0 < onDay.length then ((onDay.map qnum).sum) / (onDay.length : ℚ) else 0
  let overallAverage := (((List.range 7).map fun d => weeklyPattern (d : ℤ)).sum) / 7
  ⟨weeklyPattern,
    fun d => if 0 < overallAverage then weeklyPattern d / overallAverage else 1,
    overallAverage⟩

/-- `determineTrend(recentValues, slope)`: threshold `0.5` on the slope (the
`recentValues` argument is unused by the code). -/
def determineTrend (recentValues : List ℚ) (slope : ℚ) : String :=
  if |slope| < 0.5 then "stable"
  else if 0 < slope then "improving" else "declining"

/-- A forecast point as pushed inside the day loop, before confidence
intervals are attached.  (`date` is the ISO date of `timestamp` and is not
modelled separately.) -/
structure RawForecastPoint where
  timestamp : ℤ
  quality_index : ℚ
  day_offset : ℕ
  seasonal_factor : ℚ
  trend_component : ℚ
  base_component : ℚ
  deriving DecidableEq

/-- The `confidence_interval` block of a forecast point. -/
structure ConfidenceInterval where
  lower : ℚ
  upper : ℚ
  confidence_level : ℚ
  deriving DecidableEq

/-- A forecast point after `addConfidenceIntervals`. -/
structure ForecastPoint extends RawForecastPoint where
  confidence_interval : ConfidenceInterval
  deriving DecidableEq

instance : Inhabited ForecastPoint :=
  ⟨⟨0, 0, 0, 0, 0, 0⟩, ⟨0, 0, 0⟩⟩

/-- `addConfidenceIntervals(historicalData, forecasts)`: one-step prediction
errors over up to the last 30 historical points, their mean (default `5`) and
sample standard deviation (default `3`), then a margin per forecast index
with exponential decay. -/
def addConfidenceIntervals (ops : RealOps) (historicalData : List Reading)
    (forecasts : List RawForecastPoint) : List ForecastPoint :=
  let m := min historicalData.length 30
  let errors := (List.range' 1 (m - 1)).map fun i =>
    |qnum (historicalData.getD i default) - qnum (historicalData.getD (i - 1) default)|
  let avgError : ℚ := if 0 < errors.length then errors.sum / (errors.length : ℚ) else 5
  let stdError : ℚ :=
    if 1 < errors.length then
      ops.sqrt ((errors.map fun e => (e - avgError) ^ 2).sum / ((errors.length : ℚ) - 1))
    else 3
  forecasts.enum.map fun p =>
    let confidenceDecay := ops.exp (-(p.1 : ℚ) * 0.1)
    let margin := stdError * 1.96 * (1 + (p.1 : ℚ) * 0.2) * confidenceDecay
    { toRawForecastPoint := p.2,
      confidence_interval :=
        { lower := max 0 (p.2.quality_index - margin),
          upper := min 100 (p.2.quality_index + margin),
          confidence_level := max 0.5 (0.95 * confidenceDecay) } }

/-- The `ForecastResult` record (the `summary` and `metadata` blocks are not
modelled; no claim mentions them). -/
structure ForecastResult where
  success : Bool
  error : Option String
  forecast_quality_index : List ForecastPoint
  trend : String
  deriving DecidableEq

/-- The region filter and ascending timestamp sort at the top of
`generateWaterQualityForecast`.  An empty-string region is falsy in JS, so
`region ? filter(...) : data` skips the filter for it. -/
def forecastInputData (historicalData : List Reading) (region : Option String) :
    List Reading :=
  let data := match region with
    | some r => if r = "" then historicalData
                else historicalData.filter fun x => x.region = r
    | none => historicalData
  data.insertionSort fun a b => a.timestamp ≤ b.timestamp

/-- The most recent 30 points used for forecasting (`data.slice(-30)`). -/
def recentWindow (historicalData : List Reading) (region : Option String) :
    List Reading :=
  let data := forecastInputData historicalData region
  data.drop (data.length - 30)

/-- The message of the error thrown for fewer than 7 points. -/
def forecastErrorMessage : String :=
  "Insufficient historical data for forecasting (minimum 7 data points required)"

/-- The `{x: index, y: quality_index}` points fed to the regression. -/
def regressionInput (recentData : List Reading) : List (ℚ × ℚ) :=
  recentData.enum.map fun p => ((p.1 : ℚ), qnum p.2)

/-- The `data.slice(-7)` quality values used for smoothing and for the final
trend label. -/
def recentQualityValues (recentData : List Reading) : List ℚ :=
  (recentData.drop (recentData.length - 7)).map qnum

/-- The `for (day = 1..7)` loop of `generateWaterQualityForecast`: one raw
forecast point per day. -/
def forecastRawPoints (recentData : List Reading) (regression : Regression)
    (seasonalAnalysis : SeasonalAnalysis) (noise : ℕ → ℚ) : List RawForecastPoint :=
  let baseT := (recentData.getD (recentData.length - 1) default).timestamp
  (List.range 7).map fun i =>
    let day : ℕ := i + 1
    let forecastT := baseT + (day : ℤ) * msPerDay
    let basePrediction :=
      regression.slope * ((recentData.length : ℚ) - 1 + (day : ℚ)) + regression.intercept
    let dayOfWeek := weekdayOfMs forecastT
    let seasonalFactor := jsOr (seasonalAnalysis.seasonalFactors dayOfWeek) 1
    let smoothedRecent := calculateMovingAverage (recentQualityValues recentData) 3
    let recentAvg := smoothedRecent.getD (smoothedRecent.length - 1) 0
    let qualityIndex0 := basePrediction * 0.6 + recentAvg * seasonalFactor * 0.4
    let qualityIndex := max 0 (min 100 (qualityIndex0 + noise day))
    ({ timestamp := forecastT, quality_index := round10 qualityIndex,
       day_offset := day, seasonal_factor := seasonalFactor,
       trend_component := basePrediction, base_component := recentAvg } :
      RawForecastPoint)

/-- The `try` body of `generateWaterQualityForecast`: the one `throw`
(insufficient data) is modelled as `Except.error`. -/
def generateForecastBody (ops : RealOps) (noise : ℕ → ℚ)
    (historicalData : List Reading) (region : Option String) :
    Except String ForecastResult :=
  let data := forecastInputData historicalData region
  if data.length < 7 then Except.error forecastErrorMessage
  else
    let recentData := data.drop (data.length - 30)
    let regression := calculateLinearRegression (regressionInput recentData)
    let seasonalAnalysis := detectSeasonalPatterns recentData
    let forecasts := forecastRawPoints recentData regression seasonalAnalysis noise
    let forecastsWithConfidence := addConfidenceIntervals ops recentData forecasts
    let trend := determineTrend (recentQualityValues recentData) regression.slope
    Except.ok ⟨true, none, forecastsWithConfidence, trend⟩

/-- `generateWaterQualityForecast(historicalData, region)`: the surrounding
`try/catch` turns any internally thrown condition into the typed failure
shape. -/
def generateWaterQualityForecast (ops : RealOps) (noise : ℕ → ℚ)
    (historicalData : List Reading) (region : Option String) : ForecastResult :=
  match generateForecastBody ops noise historicalData region with
  | Except.ok result => result
  | Except.error msg => ⟨false, some msg, [], "unknown"⟩

/-- State of the caller's `historicalReadings` array after
`generateWaterQualityForecast` returns.  With a truthy region the code sorts
the fresh array built by `filter`, leaving the argument alone; with no region
(or the falsy empty string) `data` aliases the argument and
`Array.prototype.sort` reorders it in place. -/
def generateWaterQualityForecastArrayAfter (historicalData : List Reading)
    (region : Option String) : List Reading :=
  match region with
  | some r =>
    if r = "" then historicalData.insertionSort fun a b => a.timestamp ≤ b.timestamp
    else historicalData
  | none => historicalData.insertionSort fun a b => a.timestamp ≤ b.timestamp

/-! ## Forecast Cache key generation -/

/-- A JSON value stored in a cache-key params object (strings and integers
cover the uses in this codebase). -/
inductive JVal where
  | str (s : String)
  | num (n : ℤ)
  deriving DecidableEq

/-- `JSON.stringify` of a single value (strings assumed free of characters
needing escapes). -/
def stringifyJVal : JVal → String
  | JVal.str s => "\"" ++ s ++ "\""
  | JVal.num n => toString n

/-- Adding one property to a JS object: an existing key keeps its position
but takes the new value; a new key is appended. -/
def jsObjectInsert (entries : List (String × JVal)) (k : String) (v : JVal) :
    List (String × JVal) :=
  match entries with
  | [] => [(k, v)]
  | (k', v') :: rest =>
    if k' = k then (k', v) :: rest else (k', v') :: jsObjectInsert rest k v

/-- The property list of the object literal built from a sequence of
key–value pairs (JS insertion-order semantics). -/
def jsObjectFromEntries (l : List (String × JVal)) : List (String × JVal) :=
  l.foldl (fun es p => jsObjectInsert es p.1 p.2) []

/-- `JSON.stringify` of an object with the given property list. -/
def jsonStringifyObj (entries : List (String × JVal)) : String :=
  "\x7b" ++
    String.intercalate ","
      (entries.map fun e => "\"" ++ e.1 ++ "\":" ++ stringifyJVal e.2) ++
  "\x7d"

/-- `ForecastCache.generateKey(region, params)`:
`JSON.stringify({region, ...params})`. -/
def ForecastCache.generateKey (region : String) (params : List (String × JVal)) :
    String :=
  jsonStringifyObj (jsObjectFromEntries (("region", JVal.str region) :: params))

/-- Following the spec's words for claim C7 only (to be compared with the
code's `detectSeasonalPatterns`): the seasonal factor of a weekday as the mean
quality index of the window readings falling on that weekday divided by the
overall mean quality index of the window, defaulting to `1` for a weekday with
no readings. -/
def specSeasonalFactor (window : List Reading) (d : ℤ) : ℚ :=
  let onDay := window.filter fun r => weekdayOfMs r.timestamp = d
  if onDay.length = 0 then 1
  else ((onDay.map qnum).sum / (onDay.length : ℚ)) /
    ((window.map qnum).sum / (window.length : ℚ))

/-! ## Concrete inputs used by witnesses and counterexamples -/

/-- A concrete instantiation of the abstract `Math` routines (any function
satisfying the theorems' hypotheses serves as a witness). -/
def sampleOps : RealOps := ⟨fun _ => 0, fun _ => 1⟩

/-- The zero noise function (a possible draw of the random perturbation). -/
def zeroNoise : ℕ → ℚ := fun _ => 0

/-- A reading at the given epoch day with the given quality index, for region
`"R"` and sensor `"s1"`. -/
def mkReading (d : ℤ) (qi : ℚ) : Reading :=
  ⟨d * msPerDay, "R", "s1", none, none, none, some qi⟩

/-! ## Theorems -/

/-- Claim C1: with fewer than 7 readings remaining after the optional region
filter, `generateWaterQualityForecast` returns the typed failure result
`{success: false, error: <message>, forecast_quality_index: [], trend:
"unknown"}`; and on every input the function returns either a success result
or that failure shape — the internal throw is caught, never propagated. -/
theorem generateWaterQualityForecast_failure_shape (ops : RealOps) (noise : ℕ → ℚ)
    (historicalData : List Reading) (region : Option String) :
    ((forecastInputData historicalData region).length < 7 →
      generateWaterQualityForecast ops noise historicalData region =
        ⟨false, some forecastErrorMessage, [], "unknown"⟩) ∧
    ((generateWaterQualityForecast ops noise historicalData region).success = true ∨
      generateWaterQualityForecast ops noise historicalData region =
        ⟨false, some forecastErrorMessage, [], "unknown"⟩) := by
  unfold generateWaterQualityForecast generateForecastBody
  by_cases h : (forecastInputData historicalData region).length < 7
  · simp [h]
  · simp [h]

/-- Witness for C1: the singleton input has fewer than 7 readings and indeed
produces the failure shape. -/
theorem generateWaterQualityForecast_failure_shape_witness :
    (forecastInputData [mkReading 0 50] none).length < 7 ∧
    generateWaterQualityForecast sampleOps zeroNoise [mkReading 0 50] none =
      ⟨false, some forecastErrorMessage, [], "unknown"⟩ :=
  ⟨by decide,
    (generateWaterQualityForecast_failure_shape sampleOps zeroNoise
      [mkReading 0 50] none).1 (by decide)⟩

/-- Claim C4 counterexample: with no region argument,
`generateWaterQualityForecast` sorts the caller's array in place
(`data = data.sort(...)` aliases `historicalReadings` when no filter ran), so
a caller's unsorted two-element array is reordered. -/
theorem generateWaterQualityForecast_mutates_caller_array :
    generateWaterQualityForecastArrayAfter [mkReading 1 50, mkReading 0 40] none ≠
      [mkReading 1 50, mkReading 0 40] := by decide

/-- Claim C4 (amended): `calculateStatistics` never mutates its argument, and
`generateWaterQualityForecast` leaves the caller's array untouched whenever a
non-empty region string is supplied; without one the caller's array is
reordered in place (sorted by timestamp) but remains a permutation of the
original, holding the same reading objects unchanged. -/
theorem engine_array_mutation (values : List ℚ) (historicalData : List Reading)
    (r : String) (region : Option String) (hr : r ≠ "") :
    calculateStatisticsArrayAfter values = values ∧
    generateWaterQualityForecastArrayAfter historicalData (some r) = historicalData ∧
    (generateWaterQualityForecastArrayAfter historicalData region).Perm historicalData := by
  refine ⟨rfl, by simp [generateWaterQualityForecastArrayAfter, hr], ?_⟩
  cases region with
  | none => exact List.perm_insertionSort _ _
  | some s =>
    by_cases hs : s = "" <;>
      simp [generateWaterQualityForecastArrayAfter, hs, List.perm_insertionSort]

/-- Witness for the amended C4 at a concrete array and region. -/
theorem engine_array_mutation_witness :
    calculateStatisticsArrayAfter [1, 2] = [1, 2] ∧
    generateWaterQualityForecastArrayAfter [mkReading 1 50, mkReading 0 40] (some "R") =
      [mkReading 1 50, mkReading 0 40] ∧
    (generateWaterQualityForecastArrayAfter [mkReading 1 50, mkReading 0 40] none).Perm
      [mkReading 1 50, mkReading 0 40] :=
  engine_array_mutation [1, 2] [mkReading 1 50, mkReading 0 40] "R" none (by decide)

/-- Claim C9 counterexample: two params objects with the same key–value pairs
inserted in different orders produce different cache keys
(`JSON.stringify` serializes properties in insertion order). -/
theorem generateKey_order_dependent :
    ForecastCache.generateKey "r" [("a", JVal.num 1), ("b", JVal.num 2)] ≠
      ForecastCache.generateKey "r" [("b", JVal.num 2), ("a", JVal.num 1)] := by
  decide

/-- Claim C9 (amended): `generateKey` is deterministic in the resulting
property list — two params sequences producing the same object entries (same
keys in the same insertion order with the same final values, after the
`region` property) yield the same key; equality merely as unordered key–value
sets does not suffice. -/
theorem generateKey_deterministic (region : String) (p q : List (String × JVal))
    (h : jsObjectFromEntries (("region", JVal.str region) :: p) =
      jsObjectFromEntries (("region", JVal.str region) :: q)) :
    ForecastCache.generateKey region p = ForecastCache.generateKey region q := by
  unfold ForecastCache.generateKey
  rw [h]

/-- Witness for the amended C9: a duplicated insertion collapses to the same
entry list and hence the same key. -/
theorem generateKey_deterministic_witness :
    ForecastCache.generateKey "r" [("a", JVal.num 1), ("a", JVal.num 1)] =
      ForecastCache.generateKey "r" [("a", JVal.num 1)] :=
  generateKey_deterministic "r" _ _ (by decide)

/-- A reading whose anomaly list is nonempty is kept (annotated) by
`detectAnomalies`. -/
theorem mem_detectAnomalies_of_anomalies {data : List Reading} {r : Reading}
    (overrides : ThresholdOverrides) (hr : r ∈ data)
    (h : anomaliesOf (mergeThresholds overrides) r ≠ []) :
    (r, anomaliesOf (mergeThresholds overrides) r) ∈ detectAnomalies data overrides := by
  unfold detectAnomalies
  rw [List.mem_filterMap]
  refine ⟨r, hr, ?_⟩
  rw [if_neg]
  simpa [List.isEmpty_iff] using h

/-- Claim C10: `detectAnomalies` does not skip null metric fields — the JS
relational operators coerce `null` to `0`, so under the default thresholds a
null temperature (`0 < 10`), a null pH (`0 < 6`) and a null quality index
(`0 < 20`) each flag the reading, which therefore appears in the returned
anomaly set with the corresponding parameter name annotated. -/
theorem detectAnomalies_flags_null_fields (data : List Reading) (r : Reading)
    (hr : r ∈ data) :
    (r.temperature = none →
      (r, anomaliesOf defaultThresholds r) ∈ detectAnomalies data noOverrides ∧
      "temperature" ∈ anomaliesOf defaultThresholds r) ∧
    (r.pH = none →
      (r, anomaliesOf defaultThresholds r) ∈ detectAnomalies data noOverrides ∧
      "pH" ∈ anomaliesOf defaultThresholds r) ∧
    (r.region_avg_quality_index = none →
      (r, anomaliesOf defaultThresholds r) ∈ detectAnomalies data noOverrides ∧
      "quality_index" ∈ anomaliesOf defaultThresholds r) := by
  have hmerge : mergeThresholds noOverrides = defaultThresholds := rfl
  refine ⟨fun ht => ?_, fun hp => ?_, fun hq => ?_⟩
  · have hmem : "temperature" ∈ anomaliesOf defaultThresholds r := by
      unfold anomaliesOf
      refine List.mem_append_left _ (List.mem_append_left _
        (List.mem_append_left _ ?_))
      rw [if_pos (Or.inl (by simp [jsNullLt, ht, defaultThresholds]))]
      exact List.mem_singleton_self _
    refine ⟨?_, hmem⟩
    have := mem_detectAnomalies_of_anomalies noOverrides hr
      (by rw [hmerge]; exact fun he => by rw [he] at hmem; cases hmem)
    rwa [hmerge] at this
  · have hmem : "pH" ∈ anomaliesOf defaultThresholds r := by
      unfold anomaliesOf
      refine List.mem_append_left _ (List.mem_append_left _
        (List.mem_append_right _ ?_))
      rw [if_pos (Or.inl (by simp [jsNullLt, hp, defaultThresholds]))]
      exact List.mem_singleton_self _
    refine ⟨?_, hmem⟩
    have := mem_detectAnomalies_of_anomalies noOverrides hr
      (by rw [hmerge]; exact fun he => by rw [he] at hmem; cases hmem)
    rwa [hmerge] at this
  · have hmem : "quality_index" ∈ anomaliesOf defaultThresholds r := by
      unfold anomaliesOf
      refine List.mem_append_right _ ?_
      rw [if_pos (by simp [jsNullLt, hq, defaultThresholds])]
      exact List.mem_singleton_self _
    refine ⟨?_, hmem⟩
    have := mem_detectAnomalies_of_anomalies noOverrides hr
      (by rw [hmerge]; exact fun he => by rw [he] at hmem; cases hmem)
    rwa [hmerge] at this

/-- Witness for C10: a reading with all four metric fields null is flagged
for temperature, pH and quality index. -/
theorem detectAnomalies_flags_null_fields_witness :
    ((⟨0, "R", "s1", none, none, none, none⟩ : Reading).temperature = none →
      ((⟨0, "R", "s1", none, none, none, none⟩ : Reading),
        anomaliesOf defaultThresholds ⟨0, "R", "s1", none, none, none, none⟩) ∈
          detectAnomalies [⟨0, "R", "s1", none, none, none, none⟩] noOverrides ∧
      "temperature" ∈ anomaliesOf defaultThresholds
        ⟨0, "R", "s1", none, none, none, none⟩) ∧
    ((⟨0, "R", "s1", none, none, none, none⟩ : Reading).pH = none →
      ((⟨0, "R", "s1", none, none, none, none⟩ : Reading),
        anomaliesOf defaultThresholds ⟨0, "R", "s1", none, none, none, none⟩) ∈
          detectAnomalies [⟨0, "R", "s1", none, none, none, none⟩] noOverrides ∧
      "pH" ∈ anomaliesOf defaultThresholds ⟨0, "R", "s1", none, none, none, none⟩) ∧
    ((⟨0, "R", "s1", none, none, none, none⟩ : Reading).region_avg_quality_index = none →
      ((⟨0, "R", "s1", none, none, none, none⟩ : Reading),
        anomaliesOf defaultThresholds ⟨0, "R", "s1", none, none, none, none⟩) ∈
          detectAnomalies [⟨0, "R", "s1", none, none, none, none⟩] noOverrides ∧
      "quality_index" ∈ anomaliesOf defaultThresholds
        ⟨0, "R", "s1", none, none, none, none⟩) :=
  detectAnomalies_flags_null_fields [⟨0, "R", "s1", none, none, none, none⟩]
    ⟨0, "R", "s1", none, none, none, none⟩ (List.mem_singleton_self _)

/-- A `filterMap` keeps the full length exactly when the function returns
`some` on every element. -/
theorem length_filterMap_eq_iff {α β : Type} {f : α → Option β} {l : List α} :
    (l.filterMap f).length = l.length ↔ ∀ x ∈ l, f x ≠ none := by
  induction l with
  | nil => simp
  | cons a l ih =>
    cases ha : f a with
    | none =>
      have hle := List.length_filterMap_le f l
      simp only [List.filterMap_cons, ha, List.length_cons]
      constructor
      · intro h; omega
      · intro h
        exact absurd ha (h a (List.mem_cons_self a l))
    | some b =>
      simp only [List.filterMap_cons, ha, List.length_cons, Nat.add_right_cancel_iff]
      rw [ih]
      constructor
      · intro h x hx
        rcases List.mem_cons.mp hx with rfl | hx
        · simp [ha]
        · exact h x hx
      · intro h x hx
        exact h x (List.mem_cons_of_mem a hx)

/-- Claim C8 counterexample: three readings, two of them with non-null
temperature, still produce `insufficient_data` — the guard compares the
non-null count against the total reading count, so a single null blocks the
computation. -/
theorem calculateTrend_null_blocks_computation :
    (calculateTrend sampleOps
      ([⟨0, "R", "s1", some 10, none, none, none⟩,
        ⟨1, "R", "s1", none, none, none, none⟩,
        ⟨2, "R", "s1", some 20, none, none, none⟩] : List Reading)
      "temperature").trend = "insufficient_data" ∧
    2 ≤ (([⟨0, "R", "s1", some 10, none, none, none⟩,
        ⟨1, "R", "s1", none, none, none, none⟩,
        ⟨2, "R", "s1", some 20, none, none, none⟩] : List Reading).filterMap fun r =>
          paramOf r "temperature").length := by decide

/-- Claim C8 (amended): `calculateTrend` returns `insufficient_data` exactly
when the input has fewer than 2 readings or at least one reading's requested
parameter is null; when there are at least 2 readings all with non-null
values, it returns the computed classification — `stable` for
`|change_percentage| ≤ 5`, otherwise `increasing`/`decreasing` by sign. -/
theorem calculateTrend_insufficient_iff (ops : RealOps) (data : List Reading)
    (parameter : String) :
    ((calculateTrend ops data parameter).trend = "insufficient_data" ↔
      data.length < 2 ∨ ∃ r ∈ data, paramOf r parameter = none) ∧
    (2 ≤ data.length → (∀ r ∈ data, paramOf r parameter ≠ none) →
      (calculateTrend ops data parameter).trend =
        (let values := data.filterMap fun r => paramOf r parameter
         let cp := (values.getD (values.length - 1) 0 - values.getD 0 0) /
           values.getD 0 0 * 100
         if 5 < |cp| then (if 0 < cp then "increasing" else "decreasing")
         else "stable")) := by
  have hlen_map : (data.map fun r => ((r.timestamp : ℚ))).length = data.length :=
    List.length_map data _
  have hiff := length_filterMap_eq_iff (f := fun r => paramOf r parameter) (l := data)
  have hle := List.length_filterMap_le (fun r => paramOf r parameter) data
  by_cases h1 : data.length < 2
  · refine ⟨?_, fun h2 => by omega⟩
    have htrend : (calculateTrend ops data parameter).trend = "insufficient_data" := by
      simp [calculateTrend, h1, insufficientTrend]
    rw [htrend]
    exact iff_of_true rfl (Or.inl h1)
  · by_cases h2 : (data.filterMap fun r => paramOf r parameter).length ≠
        (data.map fun r => ((r.timestamp : ℚ))).length ∨
        (data.filterMap fun r => paramOf r parameter).length < 2
    · have htrend : (calculateTrend ops data parameter).trend = "insufficient_data" := by
        simp only [calculateTrend, if_neg h1, if_pos h2, insufficientTrend]
      refine ⟨?_, ?_⟩
      · rw [htrend]
        refine iff_of_true rfl (Or.inr ?_)
        rw [hlen_map] at h2
        have hne : (data.filterMap fun r => paramOf r parameter).length ≠
            data.length := by omega
        have hnot := (not_iff_not.mpr hiff).mp hne
        push_neg at hnot
        obtain ⟨x, hx, hnone⟩ := hnot
        exact ⟨x, hx, by simpa using hnone⟩
      · intro hge hall
        exfalso
        have heq := hiff.mpr hall
        rw [hlen_map] at h2
        omega
    · have hguard := h2
      rw [hlen_map] at hguard
      push_neg at hguard
      have htrend : (calculateTrend ops data parameter).trend =
          (let values := data.filterMap fun r => paramOf r parameter
           let cp := (values.getD (values.length - 1) 0 - values.getD 0 0) /
             values.getD 0 0 * 100
           if 5 < |cp| then (if 0 < cp then "increasing" else "decreasing")
           else "stable") := by
        simp only [calculateTrend, if_neg h1, if_neg h2]
      refine ⟨?_, fun _ _ => htrend⟩
      rw [htrend]
      apply iff_of_false
      · show ¬ (if _ then (if _ then "increasing" else "decreasing") else "stable") =
          "insufficient_data"
        split
        · split <;> decide
        · decide
      · push_neg
        refine ⟨by omega, fun x hx hnone => ?_⟩
        have hne : (data.filterMap fun r => paramOf r parameter).length ≠
            data.length := fun he => (hiff.mp he x hx) hnone
        exact hne hguard.1

/-- Witness for the amended C8: two non-null readings give the computed
classification (here `increasing`, a 100% change). -/
theorem calculateTrend_insufficient_iff_witness :
    ((calculateTrend sampleOps
      ([⟨0, "R", "s1", some 10, none, none, none⟩,
        ⟨1, "R", "s1", some 20, none, none, none⟩] : List Reading)
      "temperature").trend = "insufficient_data" ↔
      ([⟨0, "R", "s1", some 10, none, none, none⟩,
        ⟨1, "R", "s1", some 20, none, none, none⟩] : List Reading).length < 2 ∨
      ∃ r ∈ ([⟨0, "R", "s1", some 10, none, none, none⟩,
        ⟨1, "R", "s1", some 20, none, none, none⟩] : List Reading),
          paramOf r "temperature" = none) ∧
    (calculateTrend sampleOps
      ([⟨0, "R", "s1", some 10, none, none, none⟩,
        ⟨1, "R", "s1", some 20, none, none, none⟩] : List Reading)
      "temperature").trend = "increasing" :=
  ⟨(calculateTrend_insufficient_iff sampleOps _ "temperature").1,
    by
      rw [(calculateTrend_insufficient_iff sampleOps
        ([⟨0, "R", "s1", some 10, none, none, none⟩,
          ⟨1, "R", "s1", some 20, none, none, none⟩] : List Reading)
        "temperature").2 (by decide) (by decide)]
      with_unfolding_all decide⟩

/-- Rounding is monotone. -/
theorem round_le_round {x y : ℚ} (h : x ≤ y) : round x ≤ round y := by
  rw [round_eq, round_eq]
  exact Int.floor_mono (by linarith)

/-- Rounding to one decimal preserves nonnegativity. -/
theorem round10_nonneg {x : ℚ} (hx : 0 ≤ x) : 0 ≤ round10 x := by
  unfold round10
  have h : (0 : ℤ) ≤ round (x * 10) := by
    have := round_le_round (x := 0) (y := x * 10) (by linarith)
    simpa using this
  have : (0 : ℚ) ≤ ((round (x * 10) : ℤ) : ℚ) := by exact_mod_cast h
  linarith

/-- Rounding to one decimal preserves the upper bound 100. -/
theorem round10_le_100 {x : ℚ} (hx : x ≤ 100) : round10 x ≤ 100 := by
  unfold round10
  have h : round (x * 10) ≤ 1000 := by
    have h1 := round_le_round (x := x * 10) (y := ((1000 : ℤ) : ℚ)) (by push_cast; linarith)
    rwa [round_intCast] at h1
  have : ((round (x * 10) : ℤ) : ℚ) ≤ 1000 := by exact_mod_cast h
  linarith

/-- Inserting a reading into the groups increases the total size by one. -/
theorem insertGroup_sizes (gs : List (ℤ × List Reading)) (k : ℤ) (r : Reading) :
    ((insertGroup gs k r).map fun g => g.2.length).sum =
      ((gs.map fun g => g.2.length).sum) + 1 := by
  induction gs with
  | nil => simp [insertGroup]
  | cons g rest ih =>
    obtain ⟨k', rs⟩ := g
    by_cases h : k' = k
    · simp [insertGroup, h]
      omega
    · simp only [insertGroup, if_neg h, List.map_cons, List.sum_cons, ih]
      omega

/-- Inserting a reading either reuses an existing key or appends the new key. -/
theorem insertGroup_keys (gs : List (ℤ × List Reading)) (k : ℤ) (r : Reading) :
    (insertGroup gs k r).map Prod.fst =
      (if k ∈ gs.map Prod.fst then gs.map Prod.fst else gs.map Prod.fst ++ [k]) := by
  induction gs with
  | nil => simp [insertGroup]
  | cons g rest ih =>
    obtain ⟨k', rs⟩ := g
    by_cases h : k' = k
    · simp [insertGroup, h]
    · have hne : ¬(k = k') := fun he => h he.symm
      simp only [insertGroup, if_neg h, List.map_cons, List.mem_cons, hne, false_or, ih]
      by_cases hk : k ∈ rest.map Prod.fst
      · simp [hk]
      · simp [hk]

/-- Inserting a reading keeps every group nonempty. -/
theorem insertGroup_nonempty (gs : List (ℤ × List Reading)) (k : ℤ) (r : Reading)
    (h : ∀ g ∈ gs, g.2 ≠ []) : ∀ g ∈ insertGroup gs k r, g.2 ≠ [] := by
  induction gs with
  | nil =>
    intro g hg
    simp only [insertGroup, List.mem_singleton] at hg
    subst hg
    simp
  | cons g0 rest ih =>
    obtain ⟨k', rs⟩ := g0
    intro g hg
    by_cases hk : k' = k
    · simp only [insertGroup, if_pos hk, List.mem_cons] at hg
      rcases hg with rfl | hg
      · simp
      · exact h g (List.mem_cons_of_mem _ hg)
    · simp only [insertGroup, if_neg hk, List.mem_cons] at hg
      rcases hg with rfl | hg
      · exact h _ (List.mem_cons_self _ _)
      · exact ih (fun g' hg' => h g' (List.mem_cons_of_mem _ hg')) g hg

/-- Grouping invariants of the fold inside `groupDataByInterval`, generalized
over the accumulator: total size, key distinctness and group nonemptiness. -/
theorem groupFold_invariants (data : List Reading) (interval : String)
    (init : List (ℤ × List Reading)) :
    (((data.foldl (fun gs r => insertGroup gs (getIntervalKey r.timestamp interval) r)
        init).map fun g => g.2.length).sum =
      ((init.map fun g => g.2.length).sum) + data.length) ∧
    ((init.map Prod.fst).Nodup →
      ((data.foldl (fun gs r => insertGroup gs (getIntervalKey r.timestamp interval) r)
        init).map Prod.fst).Nodup) ∧
    ((∀ g ∈ init, g.2 ≠ []) →
      ∀ g ∈ data.foldl (fun gs r => insertGroup gs (getIntervalKey r.timestamp interval) r)
        init, g.2 ≠ []) := by
  induction data generalizing init with
  | nil => simpa using fun h => h
  | cons r rest ih =>
    simp only [List.foldl_cons]
    refine ⟨?_, ?_, ?_⟩
    · rw [(ih _).1, insertGroup_sizes]
      simp only [List.length_cons]
      omega
    · intro hinit
      refine (ih _).2.1 ?_
      rw [insertGroup_keys]
      by_cases hk : getIntervalKey r.timestamp interval ∈ init.map Prod.fst
      · simpa [hk] using hinit
      · simp only [if_neg hk, List.nodup_append]
        exact ⟨hinit, List.nodup_singleton _, by simpa using hk⟩
    · intro hinit
      exact (ih _).2.2 (insertGroup_nonempty init _ r hinit)

/-- Looking up a key that occurs among nonempty groups yields a nonempty
bucket. -/
theorem lookupGroup_nonempty {gs : List (ℤ × List Reading)} {k : ℤ}
    (hk : k ∈ gs.map Prod.fst) (hne : ∀ g ∈ gs, g.2 ≠ []) :
    lookupGroup gs k ≠ [] := by
  induction gs with
  | nil => simp at hk
  | cons g rest ih =>
    obtain ⟨k', rs⟩ := g
    by_cases h : k' = k
    · simpa [lookupGroup, h] using hne (k', rs) (List.mem_cons_self _ _)
    · have hk' : k ∈ rest.map Prod.fst := by
        rcases List.mem_cons.mp hk with he | hm
        · exact absurd he.symm h
        · exact hm
      simpa [lookupGroup, h] using
        ih hk' (fun g' hg' => hne g' (List.mem_cons_of_mem _ hg'))

/-- Every emitted batch summary is the summary of a nonempty bucket keyed by
a key of the grouping. -/
theorem mem_generateBatchSummaries {data : List Reading} {interval : String}
    {s : BatchSummary} (hs : s ∈ generateBatchSummaries data interval) :
    ∃ k ∈ (groupDataByInterval data interval).map Prod.fst,
      s = generateSingleBatchSummary
        (lookupGroup (groupDataByInterval data interval) k) k interval ∧
      lookupGroup (groupDataByInterval data interval) k ≠ [] := by
  unfold generateBatchSummaries at hs
  by_cases hd : data.length = 0
  · simp [hd] at hs
  · simp only [if_neg hd, List.mem_map] at hs
    obtain ⟨k, hk, rfl⟩ := hs
    have hk' : k ∈ (groupDataByInterval data interval).map Prod.fst :=
      (List.mem_insertionSort _).mp hk
    have hne : ∀ g ∈ groupDataByInterval data interval, g.2 ≠ [] :=
      (groupFold_invariants data interval []).2.2 (by simp)
    exact ⟨k, hk', rfl, lookupGroup_nonempty hk' hne⟩

/-- A nonempty bucket has at least one distinct sensor. -/
theorem jsSetUniq_ne_nil {l : List String} (h : l ≠ []) : jsSetUniq [] l ≠ [] := by
  cases l with
  | nil => exact absurd rfl h
  | cons a l => simp [jsSetUniq]

/-- The expected-reading count is positive as soon as one sensor is present. -/
theorem calculateExpectedReadings_pos {c : ℕ} (hc : 1 ≤ c) (interval : String) :
    0 < calculateExpectedReadings c interval := by
  unfold calculateExpectedReadings
  have hcq : (1 : ℚ) ≤ (c : ℚ) := by exact_mod_cast hc
  apply Int.ceil_pos.mpr
  have h1 : (1 : ℚ) ≤ (if interval = "hourly" then (1 : ℚ)
      else if interval = "daily" then 24
      else if interval = "weekly" then 24 * 7
      else if interval = "monthly" then 24 * 30
      else 24) := by
    repeat' split
    all_goals norm_num
  exact mul_pos (mul_pos (by linarith) (by norm_num)) (by linarith)

/-- Claim C5 counterexample: two readings from one sensor in the same hour
give `data_completeness_percentage = 200` — the code applies no `min(100, ·)`
cap, so the value exceeds 100. -/
theorem batch_completeness_exceeds_100 :
    100 < ((generateBatchSummaries
      ([⟨0, "R", "s1", none, none, none, some 50⟩,
        ⟨1000, "R", "s1", none, none, none, some 60⟩] : List Reading) "hourly").getD 0
        default).data_completeness_percentage := by
  with_unfolding_all decide

/-- Claim C5 (amended): every emitted batch summary has
`data_completeness_percentage = round1(total_readings / expected × 100)` with
`expected = ceil(sensorCount × 0.25 × hoursInBucket) ≥ 1`; the value is
nonnegative but is not capped at 100. -/
theorem batch_completeness_formula (data : List Reading) (interval : String)
    (s : BatchSummary) (hs : s ∈ generateBatchSummaries data interval) :
    0 < calculateExpectedReadings s.sensors_count interval ∧
    s.data_completeness_percentage =
      round10 ((s.total_readings : ℚ) /
        (calculateExpectedReadings s.sensors_count interval : ℚ) * 100) ∧
    0 ≤ s.data_completeness_percentage := by
  obtain ⟨k, hk, rfl, hbne⟩ := mem_generateBatchSummaries hs
  set b := lookupGroup (groupDataByInterval data interval) k with hb
  have hsens : 1 ≤ (jsSetUniq [] (b.map fun r => r.sensor_id)).length := by
    have : jsSetUniq [] (b.map fun r => r.sensor_id) ≠ [] :=
      jsSetUniq_ne_nil (by simpa using hbne)
    exact List.length_pos.mpr this
  have hsc : (generateSingleBatchSummary b k interval).sensors_count =
      (jsSetUniq [] (b.map fun r => r.sensor_id)).length := rfl
  have hpos : 0 < calculateExpectedReadings
      (generateSingleBatchSummary b k interval).sensors_count interval := by
    rw [hsc]
    exact calculateExpectedReadings_pos hsens interval
  refine ⟨hpos, ?_, ?_⟩
  · show round10 (if 0 < calculateExpectedReadings
        (jsSetUniq [] (b.map fun r => r.sensor_id)).length interval
        then (b.length : ℚ) / _ * 100 else 100) = _
    rw [if_pos (by rw [hsc] at hpos; exact hpos)]
    rfl
  · show 0 ≤ round10 (if 0 < calculateExpectedReadings
        (jsSetUniq [] (b.map fun r => r.sensor_id)).length interval
        then (b.length : ℚ) / _ * 100 else 100)
    rw [if_pos (by rw [hsc] at hpos; exact hpos)]
    apply round10_nonneg
    have h1 : (0 : ℚ) < ((calculateExpectedReadings
        (jsSetUniq [] (b.map fun r => r.sensor_id)).length interval : ℤ) : ℚ) := by
      rw [hsc] at hpos
      exact_mod_cast hpos
    positivity

/-- Witness for the amended C5 at the over-100 bucket of the counterexample
input. -/
theorem batch_completeness_formula_witness :
    0 < calculateExpectedReadings ((generateBatchSummaries
      ([⟨0, "R", "s1", none, none, none, some 50⟩,
        ⟨1000, "R", "s1", none, none, none, some 60⟩] : List Reading) "hourly").getD 0
        default).sensors_count "hourly" ∧
    ((generateBatchSummaries
      ([⟨0, "R", "s1", none, none, none, some 50⟩,
        ⟨1000, "R", "s1", none, none, none, some 60⟩] : List Reading) "hourly").getD 0
        default).data_completeness_percentage =
      round10 ((((generateBatchSummaries
      ([⟨0, "R", "s1", none, none, none, some 50⟩,
        ⟨1000, "R", "s1", none, none, none, some 60⟩] : List Reading) "hourly").getD 0
        default).total_readings : ℚ) /
        (calculateExpectedReadings ((generateBatchSummaries
      ([⟨0, "R", "s1", none, none, none, some 50⟩,
        ⟨1000, "R", "s1", none, none, none, some 60⟩] : List Reading) "hourly").getD 0
        default).sensors_count "hourly" : ℚ) * 100) ∧
    0 ≤ ((generateBatchSummaries
      ([⟨0, "R", "s1", none, none, none, some 50⟩,
        ⟨1000, "R", "s1", none, none, none, some 60⟩] : List Reading) "hourly").getD 0
        default).data_completeness_percentage :=
  batch_completeness_formula
    ([⟨0, "R", "s1", none, none, none, some 50⟩,
      ⟨1000, "R", "s1", none, none, none, some 60⟩] : List Reading) "hourly"
    _ (by with_unfolding_all decide)

/-- With distinct keys, looking each key of the grouping back up returns its
own bucket, so the bucket sizes are recovered exactly. -/
theorem lookup_sizes (gs : List (ℤ × List Reading))
    (hnodup : (gs.map Prod.fst).Nodup) :
    (gs.map Prod.fst).map (fun k => (lookupGroup gs k).length) =
      gs.map fun g => g.2.length := by
  induction gs with
  | nil => rfl
  | cons g rest ih =>
    obtain ⟨k, rs⟩ := g
    simp only [List.map_cons, List.nodup_cons] at hnodup ⊢
    congr 1
    · simp [lookupGroup]
    · rw [List.map_congr_left (g := fun k' => (lookupGroup rest k').length) ?_]
      · exact ih hnodup.2
      · intro k' hk'
        have hne : ¬(k = k') := fun he => hnodup.1 (he ▸ hk')
        simp [lookupGroup, hne]

/-- Claim C6: `generateBatchSummaries` emits its buckets sorted strictly
descending by bucket timestamp, and the `total_readings` over all buckets sum
to the input length — the readings are partitioned, none dropped or
duplicated. -/
theorem generateBatchSummaries_sorted_partition (data : List Reading)
    (interval : String) :
    (((generateBatchSummaries data interval).map fun s => s.timestamp).Sorted
      (· > ·)) ∧
    ((generateBatchSummaries data interval).map fun s => s.total_readings).sum =
      data.length := by
  unfold generateBatchSummaries
  by_cases hd : data.length = 0
  · simp only [if_pos hd, List.map_nil, List.sum_nil]
    exact ⟨List.sorted_nil, hd.symm⟩
  · simp only [if_neg hd]
    have hnodup : ((groupDataByInterval data interval).map Prod.fst).Nodup :=
      (groupFold_invariants data interval []).2.1 (by simp)
    have hperm : (((groupDataByInterval data interval).map Prod.fst).insertionSort
        (· ≥ ·)).Perm ((groupDataByInterval data interval).map Prod.fst) :=
      List.perm_insertionSort _ _
    constructor
    · rw [List.map_map]
      have hcomp : ((fun s : BatchSummary => s.timestamp) ∘ fun k =>
          generateSingleBatchSummary
            (lookupGroup (groupDataByInterval data interval) k) k interval) = id := rfl
      rw [hcomp, List.map_id]
      exact (List.sorted_insertionSort _ _).gt_of_ge (hperm.nodup_iff.mpr hnodup)
    · rw [List.map_map]
      have hcomp : ((fun s : BatchSummary => s.total_readings) ∘ fun k =>
          generateSingleBatchSummary
            (lookupGroup (groupDataByInterval data interval) k) k interval) =
          fun k => (lookupGroup (groupDataByInterval data interval) k).length := rfl
      rw [hcomp, (hperm.map _).sum_eq, lookup_sizes _ hnodup]
      simpa using (groupFold_invariants data interval []).1

/-- Unfolding of `calculateStatistics` on nonempty input. -/
theorem calculateStatistics_eq (ops : RealOps) (values : List ℚ)
    (h : values.length ≠ 0) :
    calculateStatistics ops values =
      ⟨(values.insertionSort (· ≤ ·)).getD 0 0,
       (values.insertionSort (· ≤ ·)).getD (values.length - 1) 0,
       values.sum / (values.length : ℚ),
       (if values.length % 2 = 0 then
         ((values.insertionSort (· ≤ ·)).getD (values.length / 2 - 1) 0 +
           (values.insertionSort (· ≤ ·)).getD (values.length / 2) 0) / 2
        else (values.insertionSort (· ≤ ·)).getD (values.length / 2) 0),
       ops.sqrt ((values.map
         (fun v => (v - values.sum / (values.length : ℚ)) ^ 2)).sum /
           (values.length : ℚ)),
       values.length⟩ := by
  unfold calculateStatistics
  rw [if_neg h]

/-- Monotone access into a sorted list (with default `0`). -/
theorem sorted_getD_mono {s : List ℚ} (hs : s.Sorted (· ≤ ·)) {i j : ℕ}
    (hij : i ≤ j) (hj : j < s.length) : s.getD i 0 ≤ s.getD j 0 := by
  have hi : i < s.length := lt_of_le_of_lt hij hj
  rw [List.getD_eq_getElem s 0 hi, List.getD_eq_getElem s 0 hj]
  have := hs.rel_get_of_le (a := ⟨i, hi⟩) (b := ⟨j, hj⟩) (Fin.mk_le_mk.mpr hij)
  simpa [List.get_eq_getElem] using this

/-- Claim C3: for every nonempty numeric list, `calculateStatistics` returns
a summary with `min ≤ median ≤ max`, `min ≤ average ≤ max`, `stdDev ≥ 0`
(the population variance handed to the square-root routine is nonnegative)
and `count` equal to the input length; `calculateStatistics([])` returns the
all-zero summary rather than an error. -/
theorem calculateStatistics_invariants (ops : RealOps) (values : List ℚ)
    (hsqrt : ∀ x, 0 ≤ x → 0 ≤ ops.sqrt x) :
    (values ≠ [] →
      (calculateStatistics ops values).min ≤ (calculateStatistics ops values).median ∧
      (calculateStatistics ops values).median ≤ (calculateStatistics ops values).max ∧
      (calculateStatistics ops values).min ≤ (calculateStatistics ops values).average ∧
      (calculateStatistics ops values).average ≤ (calculateStatistics ops values).max ∧
      0 ≤ (calculateStatistics ops values).stdDev ∧
      (calculateStatistics ops values).count = values.length) ∧
    calculateStatistics ops [] = ⟨0, 0, 0, 0, 0, 0⟩ := by
  refine ⟨fun hne => ?_, rfl⟩
  have hlen0 : values.length ≠ 0 := fun h => hne (List.length_eq_zero.mp h)
  have hpos : 0 < values.length := Nat.pos_of_ne_zero hlen0
  have hposq : (0 : ℚ) < (values.length : ℚ) := by exact_mod_cast hpos
  rw [calculateStatistics_eq ops values hlen0]
  set n := values.length with hn
  set s := values.insertionSort (· ≤ ·) with hsdef
  have hs : s.Sorted (· ≤ ·) := List.sorted_insertionSort _ _
  have hperm : s.Perm values := List.perm_insertionSort _ _
  have hlen : s.length = n := hperm.length_eq
  have hbound : ∀ x ∈ values, s.getD 0 0 ≤ x ∧ x ≤ s.getD (n - 1) 0 := by
    intro x hx
    have hxs : x ∈ s := hperm.mem_iff.mpr hx
    obtain ⟨i, hi⟩ := List.mem_iff_get.mp hxs
    have hilt : (i : ℕ) < s.length := i.isLt
    have hgi : s.getD (i : ℕ) 0 = x := by
      rw [List.getD_eq_getElem s 0 hilt, ← hi]
      simp [List.get_eq_getElem]
    constructor
    · rw [← hgi]
      exact sorted_getD_mono hs (Nat.zero_le _) hilt
    · rw [← hgi]
      exact sorted_getD_mono hs (by omega) (by omega)
  have hmin_le_max : s.getD 0 0 ≤ s.getD (n - 1) 0 :=
    sorted_getD_mono hs (Nat.zero_le _) (by omega)
  have hmed : s.getD 0 0 ≤
      (if n % 2 = 0 then (s.getD (n / 2 - 1) 0 + s.getD (n / 2) 0) / 2
       else s.getD (n / 2) 0) ∧
      (if n % 2 = 0 then (s.getD (n / 2 - 1) 0 + s.getD (n / 2) 0) / 2
       else s.getD (n / 2) 0) ≤ s.getD (n - 1) 0 := by
    by_cases hpar : n % 2 = 0
    · have h2 : 2 ≤ n := by omega
      have ha1 : s.getD 0 0 ≤ s.getD (n / 2 - 1) 0 :=
        sorted_getD_mono hs (Nat.zero_le _) (by omega)
      have ha2 : s.getD 0 0 ≤ s.getD (n / 2) 0 :=
        sorted_getD_mono hs (Nat.zero_le _) (by omega)
      have hb1 : s.getD (n / 2 - 1) 0 ≤ s.getD (n - 1) 0 :=
        sorted_getD_mono hs (by omega) (by omega)
      have hb2 : s.getD (n / 2) 0 ≤ s.getD (n - 1) 0 :=
        sorted_getD_mono hs (by omega) (by omega)
      rw [if_pos hpar]
      constructor <;> linarith
    · have ha : s.getD 0 0 ≤ s.getD (n / 2) 0 :=
        sorted_getD_mono hs (Nat.zero_le _) (by omega)
      have hb : s.getD (n / 2) 0 ≤ s.getD (n - 1) 0 :=
        sorted_getD_mono hs (by omega) (by omega)
      rw [if_neg hpar]
      exact ⟨ha, hb⟩
  have hsum_ub : values.sum ≤ n • (s.getD (n - 1) 0) :=
    List.sum_le_card_nsmul values _ (fun x hx => (hbound x hx).2)
  have hsum_lb : n • (s.getD 0 0) ≤ values.sum :=
    List.card_nsmul_le_sum values _ (fun x hx => (hbound x hx).1)
  rw [nsmul_eq_mul] at hsum_ub hsum_lb
  have havg_ub : values.sum / (n : ℚ) ≤ s.getD (n - 1) 0 := by
    rw [div_le_iff hposq]
    linarith
  have havg_lb : s.getD 0 0 ≤ values.sum / (n : ℚ) := by
    rw [le_div_iff hposq]
    linarith
  have hvar : 0 ≤ (values.map
      (fun v => (v - values.sum / (n : ℚ)) ^ 2)).sum / (n : ℚ) := by
    apply div_nonneg _ (le_of_lt hposq)
    apply List.sum_nonneg
    intro x hx
    obtain ⟨v, _, rfl⟩ := List.mem_map.mp hx
    positivity
  exact ⟨hmed.1, hmed.2, havg_lb, havg_ub, hsqrt _ hvar, rfl⟩

/-- Witness for C3 at `[1, 2, 3, 4, 5]`. -/
theorem calculateStatistics_invariants_witness :
    (calculateStatistics sampleOps [1, 2, 3, 4, 5]).min ≤
      (calculateStatistics sampleOps [1, 2, 3, 4, 5]).median ∧
    (calculateStatistics sampleOps [1, 2, 3, 4, 5]).median ≤
      (calculateStatistics sampleOps [1, 2, 3, 4, 5]).max ∧
    (calculateStatistics sampleOps [1, 2, 3, 4, 5]).min ≤
      (calculateStatistics sampleOps [1, 2, 3, 4, 5]).average ∧
    (calculateStatistics sampleOps [1, 2, 3, 4, 5]).average ≤
      (calculateStatistics sampleOps [1, 2, 3, 4, 5]).max ∧
    0 ≤ (calculateStatistics sampleOps [1, 2, 3, 4, 5]).stdDev ∧
    (calculateStatistics sampleOps [1, 2, 3, 4, 5]).count =
      ([1, 2, 3, 4, 5] : List ℚ).length :=
  (calculateStatistics_invariants sampleOps [1, 2, 3, 4, 5]
    (fun _ _ => le_refl 0)).1 (by decide)

/-- On at least 7 filtered readings, `generateWaterQualityForecast` returns
the success record built from the recent window. -/
theorem generateWaterQualityForecast_success_eq (ops : RealOps) (noise : ℕ → ℚ)
    (historicalData : List Reading) (region : Option String)
    (h : ¬(forecastInputData historicalData region).length < 7) :
    generateWaterQualityForecast ops noise historicalData region =
      ⟨true, none,
        addConfidenceIntervals ops (recentWindow historicalData region)
          (forecastRawPoints (recentWindow historicalData region)
            (calculateLinearRegression
              (regressionInput (recentWindow historicalData region)))
            (detectSeasonalPatterns (recentWindow historicalData region)) noise),
        determineTrend (recentQualityValues (recentWindow historicalData region))
          (calculateLinearRegression
            (regressionInput (recentWindow historicalData region))).slope⟩ := by
  unfold generateWaterQualityForecast generateForecastBody recentWindow
  simp [h]

/-- The day loop emits exactly 7 raw points. -/
theorem forecastRawPoints_length (recentData : List Reading) (regression : Regression)
    (sa : SeasonalAnalysis) (noise : ℕ → ℚ) :
    (forecastRawPoints recentData regression sa noise).length = 7 := by
  simp [forecastRawPoints]

/-- `addConfidenceIntervals` preserves the number of forecast points. -/
theorem addConfidenceIntervals_length (ops : RealOps) (hist : List Reading)
    (fs : List RawForecastPoint) :
    (addConfidenceIntervals ops hist fs).length = fs.length := by
  simp [addConfidenceIntervals]

/-- Every raw forecast point has its quality index clamped into `[0, 100]`
(the rounding to one decimal preserves the bounds). -/
theorem forecastRawPoints_quality_bounds (recentData : List Reading)
    (regression : Regression) (sa : SeasonalAnalysis) (noise : ℕ → ℚ) :
    ∀ f ∈ forecastRawPoints recentData regression sa noise,
      0 ≤ f.quality_index ∧ f.quality_index ≤ 100 := by
  intro f hf
  simp only [forecastRawPoints, List.mem_map] at hf
  obtain ⟨i, _, rfl⟩ := hf
  refine ⟨round10_nonneg (le_max_left _ _), round10_le_100 ?_⟩
  exact max_le (by norm_num) (min_le_left _ _)

/-- The confidence margin is nonnegative, so the interval bounds stay in
`[0, 100]` whenever the point's quality index does. -/
theorem addConfidenceIntervals_bounds (ops : RealOps) (hist : List Reading)
    (fs : List RawForecastPoint)
    (hsqrt : ∀ x, 0 ≤ x → 0 ≤ ops.sqrt x) (hexp : ∀ x, 0 ≤ ops.exp x)
    (hq : ∀ f ∈ fs, 0 ≤ f.quality_index ∧ f.quality_index ≤ 100) :
    ∀ p ∈ addConfidenceIntervals ops hist fs,
      (0 ≤ p.quality_index ∧ p.quality_index ≤ 100) ∧
      (0 ≤ p.confidence_interval.lower ∧ p.confidence_interval.lower ≤ 100) ∧
      (0 ≤ p.confidence_interval.upper ∧ p.confidence_interval.upper ≤ 100) := by
  intro p hp
  unfold addConfidenceIntervals at hp
  simp only [List.mem_map] at hp
  obtain ⟨⟨i, f⟩, hmem, rfl⟩ := hp
  have hf : f ∈ fs := by
    have : ((i, f) : ℕ × RawForecastPoint).2 ∈ fs.enum.map Prod.snd :=
      List.mem_map_of_mem Prod.snd hmem
    rwa [List.enum_map_snd] at this
  obtain ⟨h0, h100⟩ := hq f hf
  set errors := (List.range' 1 (min hist.length 30 - 1)).map fun i =>
    |qnum (hist.getD i default) - qnum (hist.getD (i - 1) default)| with herr
  set avgError : ℚ := if 0 < errors.length then errors.sum / (errors.length : ℚ) else 5
    with havg
  have hstd : 0 ≤ (if 1 < errors.length then
      ops.sqrt ((errors.map fun e => (e - avgError) ^ 2).sum /
        ((errors.length : ℚ) - 1)) else 3) := by
    split
    next hlen =>
      apply hsqrt
      apply div_nonneg
      · apply List.sum_nonneg
        intro x hx
        obtain ⟨e, _, rfl⟩ := List.mem_map.mp hx
        positivity
      · have : (1 : ℚ) < (errors.length : ℚ) := by exact_mod_cast hlen
        linarith
    next => norm_num
  have hdecay : 0 ≤ ops.exp (-(i : ℚ) * 0.1) := hexp _
  have hmargin : 0 ≤ (if 1 < errors.length then
      ops.sqrt ((errors.map fun e => (e - avgError) ^ 2).sum /
        ((errors.length : ℚ) - 1)) else 3) * 1.96 * (1 + (i : ℚ) * 0.2) *
        ops.exp (-(i : ℚ) * 0.1) := by
    apply mul_nonneg _ hdecay
    apply mul_nonneg (mul_nonneg hstd (by norm_num))
    positivity
  refine ⟨⟨h0, h100⟩, ⟨le_max_left _ _, max_le (by norm_num) (by linarith)⟩,
    ⟨le_min (by norm_num) (by linarith), min_le_left _ _⟩⟩

/-- Claim C2: every successful forecast carries exactly 7 points, each with
`quality_index` and both confidence-interval bounds inside `[0, 100]` (the
square-root and exponential routines being nonnegative). -/
theorem forecast_bounds (ops : RealOps) (noise : ℕ → ℚ) (data : List Reading)
    (region : Option String)
    (hsqrt : ∀ x, 0 ≤ x → 0 ≤ ops.sqrt x) (hexp : ∀ x, 0 ≤ ops.exp x)
    (hsucc : (generateWaterQualityForecast ops noise data region).success = true) :
    (generateWaterQualityForecast ops noise data region).forecast_quality_index.length = 7 ∧
    ∀ p ∈ (generateWaterQualityForecast ops noise data region).forecast_quality_index,
      (0 ≤ p.quality_index ∧ p.quality_index ≤ 100) ∧
      (0 ≤ p.confidence_interval.lower ∧ p.confidence_interval.lower ≤ 100) ∧
      (0 ≤ p.confidence_interval.upper ∧ p.confidence_interval.upper ≤ 100) := by
  by_cases h : (forecastInputData data region).length < 7
  · exfalso
    have hfail : generateWaterQualityForecast ops noise data region =
        ⟨false, some forecastErrorMessage, [], "unknown"⟩ := by
      unfold generateWaterQualityForecast generateForecastBody
      simp [h]
    rw [hfail] at hsucc
    simp at hsucc
  · rw [generateWaterQualityForecast_success_eq ops noise data region h]
    refine ⟨?_, ?_⟩
    · rw [addConfidenceIntervals_length, forecastRawPoints_length]
    · exact addConfidenceIntervals_bounds _ _ _ hsqrt hexp
        (forecastRawPoints_quality_bounds _ _ _ _)

/-- Witness for C2: a 7-reading input succeeds and satisfies the bounds. -/
theorem forecast_bounds_witness :
    (generateWaterQualityForecast sampleOps zeroNoise
      [mkReading 0 85, mkReading 1 84, mkReading 2 86, mkReading 3 85,
       mkReading 4 84, mkReading 5 85, mkReading 6 84]
      none).forecast_quality_index.length = 7 ∧
    ∀ p ∈ (generateWaterQualityForecast sampleOps zeroNoise
      [mkReading 0 85, mkReading 1 84, mkReading 2 86, mkReading 3 85,
       mkReading 4 84, mkReading 5 85, mkReading 6 84]
      none).forecast_quality_index,
      (0 ≤ p.quality_index ∧ p.quality_index ≤ 100) ∧
      (0 ≤ p.confidence_interval.lower ∧ p.confidence_interval.lower ≤ 100) ∧
      (0 ≤ p.confidence_interval.upper ∧ p.confidence_interval.upper ≤ 100) :=
  forecast_bounds sampleOps zeroNoise
    [mkReading 0 85, mkReading 1 84, mkReading 2 86, mkReading 3 85,
     mkReading 4 84, mkReading 5 85, mkReading 6 84] none
    (fun _ _ => le_refl 0) (fun _ => zero_le_one) (by with_unfolding_all decide)

/-- Claim C7 counterexample: on 8 consecutive daily readings (quality `0`,
six times `70`, then `100`) the 7th forecast day falls on the same weekday
(Thursday, `getDay = 4`) as the first and last readings.  The factor the
engine applies there is `(50)/(470/7) = 35/47`, whereas the claim's formula —
weekday mean over overall window mean — gives `50/65 = 10/13`: the code
normalizes by the mean of the seven per-weekday averages, not by the overall
window mean. -/
theorem forecast_seasonal_factor_counterexample :
    ((generateWaterQualityForecast sampleOps zeroNoise
      [mkReading 0 0, mkReading 1 70, mkReading 2 70, mkReading 3 70,
       mkReading 4 70, mkReading 5 70, mkReading 6 70, mkReading 7 100]
      none).forecast_quality_index.getD 6 default).day_offset = 7 ∧
    weekdayOfMs (((generateWaterQualityForecast sampleOps zeroNoise
      [mkReading 0 0, mkReading 1 70, mkReading 2 70, mkReading 3 70,
       mkReading 4 70, mkReading 5 70, mkReading 6 70, mkReading 7 100]
      none).forecast_quality_index.getD 6 default).timestamp) = 4 ∧
    ((generateWaterQualityForecast sampleOps zeroNoise
      [mkReading 0 0, mkReading 1 70, mkReading 2 70, mkReading 3 70,
       mkReading 4 70, mkReading 5 70, mkReading 6 70, mkReading 7 100]
      none).forecast_quality_index.getD 6 default).seasonal_factor ≠
      specSeasonalFactor (recentWindow
        [mkReading 0 0, mkReading 1 70, mkReading 2 70, mkReading 3 70,
         mkReading 4 70, mkReading 5 70, mkReading 6 70, mkReading 7 100] none) 4 := by
  with_unfolding_all decide

/-- A weekday with no readings yields an applied seasonal factor of 1: the
computed factor is then `0` (or `1` when the overall average is
nonpositive), and the `|| 1` in the forecast loop maps `0` to `1`. -/
theorem seasonalFactors_jsOr_of_no_readings (w : List Reading) (d : ℤ)
    (hcount : (weekdayReadings w d).length = 0) :
    jsOr ((detectSeasonalPatterns w).seasonalFactors d) 1 = 1 := by
  have hwp : (detectSeasonalPatterns w).weeklyPattern d = 0 := by
    simp [detectSeasonalPatterns, hcount]
  have hsf : (detectSeasonalPatterns w).seasonalFactors d =
      (if 0 < (detectSeasonalPatterns w).overallAverage then
        (detectSeasonalPatterns w).weeklyPattern d /
          (detectSeasonalPatterns w).overallAverage
       else 1) := rfl
  rw [hsf, hwp]
  by_cases hoa : 0 < (detectSeasonalPatterns w).overallAverage
  · simp [jsOr, hoa]
  · simp [jsOr, hoa]

/-- Claim C7 (amended): the seasonal factor applied for a forecast day's
weekday is the code's `detectSeasonalPatterns` factor — weekday mean divided
by the mean of the seven per-weekday averages (counting `0` for empty
weekdays), with `1` substituted when that factor is `0` or the normalizer is
nonpositive — and in particular a weekday with no readings in the recent
window still gets factor `1`. -/
theorem forecast_seasonal_factor_eq (ops : RealOps) (noise : ℕ → ℚ)
    (data : List Reading) (region : Option String)
    (hsucc : (generateWaterQualityForecast ops noise data region).success = true) :
    ∀ p ∈ (generateWaterQualityForecast ops noise data region).forecast_quality_index,
      p.seasonal_factor =
        jsOr ((detectSeasonalPatterns (recentWindow data region)).seasonalFactors
          (weekdayOfMs p.timestamp)) 1 ∧
      ((weekdayReadings (recentWindow data region) (weekdayOfMs p.timestamp)).length = 0 →
        p.seasonal_factor = 1) := by
  by_cases h : (forecastInputData data region).length < 7
  · exfalso
    have hfail : generateWaterQualityForecast ops noise data region =
        ⟨false, some forecastErrorMessage, [], "unknown"⟩ := by
      unfold generateWaterQualityForecast generateForecastBody
      simp [h]
    rw [hfail] at hsucc
    simp at hsucc
  · rw [generateWaterQualityForecast_success_eq ops noise data region h]
    intro p hp
    unfold addConfidenceIntervals at hp
    simp only [List.mem_map] at hp
    obtain ⟨⟨i, f⟩, hmem, rfl⟩ := hp
    have hf : f ∈ forecastRawPoints (recentWindow data region)
        (calculateLinearRegression (regressionInput (recentWindow data region)))
        (detectSeasonalPatterns (recentWindow data region)) noise := by
      have : ((i, f) : ℕ × RawForecastPoint).2 ∈
          (forecastRawPoints (recentWindow data region)
            (calculateLinearRegression (regressionInput (recentWindow data region)))
            (detectSeasonalPatterns (recentWindow data region)) noise).enum.map
              Prod.snd :=
        List.mem_map_of_mem Prod.snd hmem
      rwa [List.enum_map_snd] at this
    show f.seasonal_factor = _ ∧ _
    simp only [forecastRawPoints, List.mem_map] at hf
    obtain ⟨j, _, rfl⟩ := hf
    exact ⟨rfl, fun hcount => seasonalFactors_jsOr_of_no_readings _ _ hcount⟩

/-- Witness for the amended C7 at the 7th point of the counterexample input. -/
theorem forecast_seasonal_factor_eq_witness :
    ((generateWaterQualityForecast sampleOps zeroNoise
      [mkReading 0 0, mkReading 1 70, mkReading 2 70, mkReading 3 70,
       mkReading 4 70, mkReading 5 70, mkReading 6 70, mkReading 7 100]
      none).forecast_quality_index.getD 6 default).seasonal_factor =
      jsOr ((detectSeasonalPatterns (recentWindow
        [mkReading 0 0, mkReading 1 70, mkReading 2 70, mkReading 3 70,
         mkReading 4 70, mkReading 5 70, mkReading 6 70, mkReading 7 100] none)).seasonalFactors
        (weekdayOfMs ((generateWaterQualityForecast sampleOps zeroNoise
          [mkReading 0 0, mkReading 1 70, mkReading 2 70, mkReading 3 70,
           mkReading 4 70, mkReading 5 70, mkReading 6 70, mkReading 7 100]
          none).forecast_quality_index.getD 6 default).timestamp)) 1 ∧
    ((weekdayReadings (recentWindow
        [mkReading 0 0, mkReading 1 70, mkReading 2 70, mkReading 3 70,
         mkReading 4 70, mkReading 5 70, mkReading 6 70, mkReading 7 100] none)
      (weekdayOfMs ((generateWaterQualityForecast sampleOps zeroNoise
        [mkReading 0 0, mkReading 1 70, mkReading 2 70, mkReading 3 70,
         mkReading 4 70, mkReading 5 70, mkReading 6 70, mkReading 7 100]
        none).forecast_quality_index.getD 6 default).timestamp)).length = 0 →
      ((generateWaterQualityForecast sampleOps zeroNoise
        [mkReading 0 0, mkReading 1 70, mkReading 2 70, mkReading 3 70,
         mkReading 4 70, mkReading 5 70, mkReading 6 70, mkReading 7 100]
        none).forecast_quality_index.getD 6 default).seasonal_factor = 1) := by
  have hge : ¬(forecastInputData
      [mkReading 0 0, mkReading 1 70, mkReading 2 70, mkReading 3 70,
       mkReading 4 70, mkReading 5 70, mkReading 6 70, mkReading 7 100]
      none).length < 7 := by decide
  have hs := generateWaterQualityForecast_success_eq sampleOps zeroNoise
    [mkReading 0 0, mkReading 1 70, mkReading 2 70, mkReading 3 70,
     mkReading 4 70, mkReading 5 70, mkReading 6 70, mkReading 7 100] none hge
  have hlen7 : (generateWaterQualityForecast sampleOps zeroNoise
      [mkReading 0 0, mkReading 1 70, mkReading 2 70, mkReading 3 70,
       mkReading 4 70, mkReading 5 70, mkReading 6 70, mkReading 7 100]
      none).forecast_quality_index.length = 7 := by
    rw [hs]
    exact (addConfidenceIntervals_length _ _ _).trans
      (forecastRawPoints_length _ _ _ _)
  have h6 : 6 < (generateWaterQualityForecast sampleOps zeroNoise
      [mkReading 0 0, mkReading 1 70, mkReading 2 70, mkReading 3 70,
       mkReading 4 70, mkReading 5 70, mkReading 6 70, mkReading 7 100]
      none).forecast_quality_index.length := by
    rw [hlen7]
    norm_num
  have hmem : (generateWaterQualityForecast sampleOps zeroNoise
      [mkReading 0 0, mkReading 1 70, mkReading 2 70, mkReading 3 70,
       mkReading 4 70, mkReading 5 70, mkReading 6 70, mkReading 7 100]
      none).forecast_quality_index.getD 6 default ∈
      (generateWaterQualityForecast sampleOps zeroNoise
      [mkReading 0 0, mkReading 1 70, mkReading 2 70, mkReading 3 70,
       mkReading 4 70, mkReading 5 70, mkReading 6 70, mkReading 7 100]
      none).forecast_quality_index := by
    rw [List.getD_eq_getElem _ _ h6]
    exact List.getElem_mem h6
  exact forecast_seasonal_factor_eq sampleOps zeroNoise
    [mkReading 0 0, mkReading 1 70, mkReading 2 70, mkReading 3 70,
     mkReading 4 70, mkReading 5 70, mkReading 6 70, mkReading 7 100] none
    (by rw [hs]) _ hmem
